import Mathlib

/-!
Verification of the disease-surveillance data pipeline
(`apputil.normalize_and_transform`, `anomaly_detector.detect_anomalies_for_country`).

The pandas DataFrame is embedded as an association list of named columns of
cells; a cell is a rational number, a string, or null (NaN / pd.NA).  Pandas
and sklearn operations that can raise are embedded as `Except`-valued
functions.  All arithmetic is over `ℚ` (the claims under study concern which
entries are null and the algebraic form of the derived values, not
floating-point rounding).
-/

/-- One cell of a raw table: a number, a string, or a null (NaN / NA). -/
inductive Cell where
  | num (q : ℚ)
  | str (s : String)
  | null
deriving DecidableEq, Repr

/-- A DataFrame: named columns in order.  Duplicate names resolve to the
first binding, as reads do below. -/
abbrev DF := List (String × List Cell)

/-- Errors raised by the embedded pandas operations. -/
inductive PdErr where
  | keyError
  | castError
deriving DecidableEq, Repr

/-- `df[c]` as a lookup: the first column named `c`, if any. -/
def lookupCol : DF → String → Option (List Cell)
  | [], _ => none
  | (n, col) :: rest, c => if n = c then some col else lookupCol rest c

/-- `df[c] = col`: replace the first column named `c` (append if absent). -/
def setCol : DF → String → List Cell → DF
  | [], c, col => [(c, col)]
  | (n, cl) :: rest, c, col =>
      if n = c then (c, col) :: rest else (n, cl) :: setCol rest c col

/-- The fixed rename mapping of `normalize_and_transform`; unrecognized
column names pass through unchanged. -/
def renameCol : String → String
  | "Region" => "region"
  | "Country" => "country"
  | "Year" => "year"
  | "Measles_Cases" => "measles"
  | "Rubella_Cases" => "rubella"
  | "Population" => "population"
  | "Measles_Cases_Per_100K" => "measles_per100k"
  | "Rubella_Cases_Per_100K" => "rubella_per100k"
  | s => s

/-- `df.rename(columns=...)`. -/
def renameDF (df : DF) : DF := df.map (fun p => (renameCol p.1, p.2))

/-- Whitespace trim on a character list (the embedding of `.strip()` and
of the trimming `pd.to_numeric` applies to string input). -/
def trimChars (cs : List Char) : List Char :=
  ((cs.dropWhile Char.isWhitespace).reverse.dropWhile Char.isWhitespace).reverse

/-- Whitespace trim of a string. -/
def trimString (s : String) : String :=
  String.mk (trimChars s.data)

/-- Value of a digit string (callers guarantee the characters are digits). -/
def natVal (cs : List Char) : Nat :=
  cs.foldl (fun n c => n * 10 + (c.toNat - 48)) 0

/-- Parse a decimal numeral `[+-] digits [. digits]`, as `pd.to_numeric`
accepts for plain (non-scientific) numerals; `none` for anything else. -/
def parseNumStr (s : String) : Option ℚ :=
  let cs := trimChars s.data
  let signed : Bool × List Char :=
    match cs with
    | '-' :: r => (true, r)
    | '+' :: r => (false, r)
    | r => (false, r)
  let ip := signed.2.takeWhile Char.isDigit
  let rest := signed.2.dropWhile Char.isDigit
  let mag : Option ℚ :=
    match rest with
    | [] => if ip = [] then none else some ((natVal ip : ℚ))
    | '.' :: fp =>
        if fp.all Char.isDigit = true ∧ (ip ≠ [] ∨ fp ≠ []) then
          some ((natVal ip : ℚ) + (natVal fp : ℚ) / ((10 : ℚ) ^ fp.length))
        else none
    | _ => none
  mag.map (fun q => if signed.1 then -q else q)

/-- One cell under `pd.to_numeric(col, errors="coerce")`: numbers stay,
parseable strings become numbers, everything else becomes null. -/
def toNumericCell : Cell → Cell
  | .num q => .num q
  | .str s =>
      match parseNumStr s with
      | some q => .num q
      | none => .null
  | .null => .null

/-- One cell under `col.astype(str).str.strip()`. -/
def astypeStrStrip : Cell → Cell
  | .num q => .str (toString q)
  | .str s => .str (trimString s)
  | .null => .str "nan"

/-- Whether a cell survives the `astype("Int64")` cast after numeric
coercion: non-numbers become NA (fine), numbers must be integral. -/
def yearCastOkCell (c : Cell) : Bool :=
  match toNumericCell c with
  | .num q => q.den == 1
  | _ => true

/-- The value a year cell ends up with when the `Int64` cast succeeds. -/
def yearCellCoerce (c : Cell) : Cell :=
  match toNumericCell c with
  | .num q => .num q
  | _ => .null

/-- `pd.to_numeric(col, errors="coerce").astype("Int64")`: coercion never
raises, but the Int64 cast raises on a non-integral number. -/
def yearCoerceCast : List Cell → Except PdErr (List Cell)
  | [] => .ok []
  | c :: rest =>
    match toNumericCell c with
    | .num q =>
        if q.den = 1 then
          match yearCoerceCast rest with
          | .ok r => .ok (.num q :: r)
          | .error e => .error e
        else .error .castError
    | _ =>
        match yearCoerceCast rest with
        | .ok r => .ok (.null :: r)
        | .error e => .error e

/-- Coerce one measure column to numeric if it is present (the code guards
each with `if c in df.columns`). -/
def coerce1 (df : DF) (c : String) : DF :=
  match lookupCol df c with
  | some col => setCol df c (col.map toNumericCell)
  | none => df

/-- The measure-coercion loop over the five numeric columns. -/
def coerceMeasures (df : DF) : DF :=
  coerce1 (coerce1 (coerce1 (coerce1 (coerce1 df "measles") "rubella")
    "population") "measles_per100k") "rubella_per100k"

/-- One row of the long table after reshaping; the derived columns start
out null and are filled in by the enricher. -/
structure LongRow where
  region : String
  country : String
  year : Option ℚ
  value : Option ℚ
  disease : String
  roll3 : Option ℚ := none
  roll5 : Option ℚ := none
  yoy : Option ℚ := none
deriving DecidableEq, Repr

/-- Year order used by `sort_values`: NA sorts last. -/
def optQLe (a b : Option ℚ) : Bool :=
  match a, b with
  | some x, some y => decide (x ≤ y)
  | some _, none => true
  | none, some _ => false
  | none, none => true

/-- Lexicographic code-point order on character lists (the order Python
string comparison uses). -/
def charListLe : List Char → List Char → Bool
  | [], _ => true
  | _ :: _, [] => false
  | c :: cs, d :: ds =>
      if c.toNat < d.toNat then true
      else if d.toNat < c.toNat then false
      else charListLe cs ds

/-- String comparison for `sort_values` keys. -/
def strLeB (a b : String) : Bool := charListLe a.data b.data

/-- `sort_values("year")` key order on long rows. -/
def leYear (a b : LongRow) : Bool := optQLe a.year b.year

/-- `sort_values(["country","disease","year"])` key order. -/
def leCDY (a b : LongRow) : Bool :=
  if a.country = b.country then
    if a.disease = b.disease then optQLe a.year b.year
    else strLeB a.disease b.disease
  else strLeB a.country b.country

/-- `sort_values(["country","year"])` key order. -/
def leCY (a b : LongRow) : Bool :=
  if a.country = b.country then optQLe a.year b.year
  else strLeB a.country b.country

/-- `series.rolling(w, min_periods=1).mean()`: at index `i`, the mean of
the non-null values among the last `w` rows ending at `i`; null when the
window holds no non-null value. -/
def rollingMean (w : Nat) (xs : List (Option ℚ)) : List (Option ℚ) :=
  (List.range xs.length).map (fun i =>
    let win := ((xs.take (i + 1)).drop (i + 1 - w)).filterMap id
    if win = [] then none else some (win.sum / (win.length : ℚ)))

/-- `np.where((prev.notna()) & (prev != 0), value/prev - 1, np.nan)` with
`prev = value.shift(1)`; a null numerator propagates to a null ratio. -/
def yoyList (xs : List (Option ℚ)) : List (Option ℚ) :=
  (List.range xs.length).map (fun i =>
    match (if i = 0 then none else xs.getD (i - 1) none) with
    | none => none
    | some p => if p = 0 then none else (xs.getD i none).map (fun v => v / p - 1))

/-- Attach the three derived columns to the rows of a group (the column
assignments `g["roll3"] = ...` etc.; all four lists have equal length). -/
def attach3 : List LongRow → List (Option ℚ) → List (Option ℚ) → List (Option ℚ) → List LongRow
  | r :: rs, a :: l3, b :: l5, c :: ly =>
      { r with roll3 := a, roll5 := b, yoy := c } :: attach3 rs l3 l5 ly
  | rs, _, _, _ => rs

/-- The per-group enricher `add_rolls_yoy`: sort the group by year, then
compute the trailing 3- and 5-row rolling means and the year-over-year
ratio of the value column. -/
def add_rolls_yoy (g : List LongRow) : List LongRow :=
  let s := List.insertionSort (fun a b => leYear a b = true) g
  let vals := s.map (fun r => r.value)
  attach3 s (rollingMean 3 vals) (rollingMean 5 vals) (yoyList vals)

/-- `groupby(key, group_keys=False).apply(f)` with explicit fuel (the fuel
is the list length, which always suffices): split off the first row's
group, apply `f` to it, recurse on the rest. -/
def gbaFuel {κ : Type} [BEq κ] (key : LongRow → κ) (f : List LongRow → List LongRow) :
    Nat → List LongRow → List LongRow
  | _, [] => []
  | 0, l => l
  | fuel + 1, r :: rest =>
      f (r :: rest.filter (fun x => key x == key r)) ++
        gbaFuel key f fuel (rest.filter (fun x => !(key x == key r)))

/-- `groupby(key, group_keys=False).apply(f)`. -/
def groupByApply {κ : Type} [BEq κ] (key : LongRow → κ) (f : List LongRow → List LongRow)
    (l : List LongRow) : List LongRow :=
  gbaFuel key f l.length l

/-- String content of a cell (identity columns are stringified earlier). -/
def cellToStr : Cell → String
  | .str s => s
  | .num q => toString q
  | .null => "nan"

/-- Numeric content of a cell, null otherwise. -/
def cellToQ : Cell → Option ℚ
  | .num q => some q
  | _ => none

/-- Row-wise zip of the four selected columns into long rows with the given
disease label (`df[["region","country","year",m]].assign(disease=label)`). -/
def zip4Rows (label : String) : List Cell → List Cell → List Cell → List Cell → List LongRow
  | r :: rs, c :: cs, y :: ys, v :: vs =>
      { region := cellToStr r, country := cellToStr c, year := cellToQ y,
        value := cellToQ v, disease := label } :: zip4Rows label rs cs ys vs
  | _, _, _, _ => []

/-- Build one long-table slice for measure column `m`; `none` when any of
the four selected columns is missing (pandas raises a KeyError). -/
def makeSlice (df : DF) (m label : String) : Option (List LongRow) :=
  match lookupCol df "region", lookupCol df "country", lookupCol df "year", lookupCol df m with
  | some rc, some cc, some yc, some vc => some (zip4Rows label rc cc yc vc)
  | _, _, _, _ => none

/-- One optional per-100k slice: present columns are sliced, sorted by
(country, year), and enriched per country; an absent column contributes
nothing (the code guards with `if c in df.columns`). -/
def per100kSlice (df : DF) (cname dname : String) : List LongRow :=
  match makeSlice df cname dname with
  | some s =>
      groupByApply (fun r => r.country) add_rolls_yoy
        (List.insertionSort (fun a b => leCY a b = true) s)
  | none => []

/-- Lines 21-22 of apputil.py: stringify and strip region and country;
reading a missing column raises a KeyError. -/
def stripIdCols (df1 : DF) : Except PdErr DF :=
  match lookupCol df1 "region" with
  | none => .error .keyError
  | some rc =>
    match lookupCol (setCol df1 "region" (rc.map astypeStrStrip)) "country" with
    | none => .error .keyError
    | some cc =>
        .ok (setCol (setCol df1 "region" (rc.map astypeStrStrip)) "country"
              (cc.map astypeStrStrip))

/-- Line 23 of apputil.py: coerce the year column and cast it to Int64. -/
def castYearCol (df3 : DF) : Except PdErr DF :=
  match lookupCol df3 "year" with
  | none => .error .keyError
  | some yc =>
    match yearCoerceCast yc with
    | .error e => .error e
    | .ok yc2 => .ok (setCol df3 "year" yc2)

/-- Lines 29-55 of apputil.py: build the measles and rubella slices
(raising when the columns are missing), sort, enrich per (country,
disease), and append the optional per-100k slices. -/
def buildLong (df5 : DF) : Except PdErr (List LongRow) :=
  match makeSlice df5 "measles" "Measles" with
  | none => .error .keyError
  | some mL =>
    match makeSlice df5 "rubella" "Rubella" with
    | none => .error .keyError
    | some rL =>
      .ok (groupByApply (fun r => (r.country, r.disease)) add_rolls_yoy
              (List.insertionSort (fun a b => leCDY a b = true) (mL ++ rL))
            ++ per100kSlice df5 "measles_per100k" "Measles_per100k"
            ++ per100kSlice df5 "rubella_per100k" "Rubella_per100k")

/-- `normalize_and_transform`: rename, stringify identity columns, coerce
year and measures, then reshape to the enriched long table. -/
def normalize_and_transform (df0 : DF) : Except PdErr (DF × List LongRow) :=
  match stripIdCols (renameDF df0) with
  | .error e => .error e
  | .ok df3 =>
    match castYearCol df3 with
    | .error e => .error e
    | .ok df4 =>
      match buildLong (coerceMeasures df4) with
      | .error e => .error e
      | .ok long => .ok (coerceMeasures df4, long)

/-- One row of the normalized wide table as the anomaly detector consumes
it (the canonical wide schema always carries the measles and rubella
columns; extra columns play no role in detection). -/
structure WideRow where
  country : String
  year : Option ℚ
  measles : Option ℚ
  rubella : Option ℚ
deriving DecidableEq, Repr

/-- Errors raised inside the embedded detector (sklearn's ValueError on
NaN input, pandas' ValueError on a length-mismatched column assignment). -/
inductive DetectErr where
  | valueErr
deriving DecidableEq, Repr

/-- An abstract `IsolationForest` fit-and-score procedure: feature matrix,
contamination, `n_estimators`, ambient RNG state, and `random_state`;
returns the predicted labels and the sample scores.  The ambient RNG state
models the randomness an unseeded estimator would draw on. -/
abbrev FitFn := List (List ℚ) → ℚ → Nat → Nat → Option Nat → (List Int × List ℚ)

/-- sklearn's documented default `n_estimators` for `IsolationForest`,
used by the single-feature models, which pass no explicit value. -/
def sklearnDefaultNEstimators : Nat := 100

/-- The `n_estimators=100` passed explicitly to the joint model. -/
def jointNEstimators : Nat := 100

/-- All values of a feature column, provided none is null. -/
def allSomeQ : List (Option ℚ) → Option (List ℚ)
  | [] => some []
  | none :: _ => none
  | some q :: rest => (allSomeQ rest).map (fun l => q :: l)

/-- One single-feature branch: guard `len(features) >= 3`, then
`fit_predict`/`score_samples`; sklearn raises a ValueError when the
feature array contains NaN. -/
def fitColumn (fit : FitFn) (feat : List (Option ℚ)) (contamination : ℚ)
    (nEst rng : Nat) : Except DetectErr (Option (List Int × List ℚ)) :=
  if 3 ≤ feat.length then
    match allSomeQ feat with
    | none => .error .valueErr
    | some xs => .ok (some (fit (xs.map (fun q => [q])) contamination nEst rng (some 42)))
  else .ok none

/-- `country_data[["measles","rubella"]].dropna().values`: the joint
feature rows with any null dropped. -/
def jointFeatures (cd : List WideRow) : List (List ℚ) :=
  cd.filterMap (fun r =>
    match r.measles, r.rubella with
    | some a, some b => some [a, b]
    | _, _ => none)

/-- The joint branch: guard `len(joint_features) >= 3`, fit, and assign
the outputs back onto the country frame; pandas raises a ValueError when
the assigned arrays are shorter than the frame. -/
def jointFit (fit : FitFn) (jf : List (List ℚ)) (nrows : Nat) (contamination : ℚ)
    (rng : Nat) : Except DetectErr (Option (List Int × List ℚ)) :=
  if 3 ≤ jf.length then
    let out := fit jf contamination jointNEstimators rng (some 42)
    if out.1.length = nrows ∧ out.2.length = nrows then Except.ok (some out)
    else Except.error DetectErr.valueErr
  else Except.ok none

/-- The per-country anomaly result: the filtered rows plus one optional
label/score pair per feature set that was scored (absent otherwise). -/
structure AnomResult where
  rows : List WideRow
  measlesAnomaly : Option (List Int) := none
  measlesScore : Option (List ℚ) := none
  rubellaAnomaly : Option (List Int) := none
  rubellaScore : Option (List ℚ) := none
  jointAnomaly : Option (List Int) := none
  jointScore : Option (List ℚ) := none
deriving DecidableEq, Repr

/-- `sort_values("year")` key order on wide rows. -/
def leYearW (a b : WideRow) : Bool := optQLe a.year b.year

/-- `detect_anomalies_for_country`: filter to the country, sort by year,
return `None` below 3 rows, otherwise score the measles, rubella, and
joint feature sets, each seeded with `random_state=42`. -/
def detect_anomalies_for_country (fit : FitFn) (rng : Nat) (dfWide : List WideRow)
    (country : String) (contamination : ℚ) : Except DetectErr (Option AnomResult) :=
  let cd := List.insertionSort (fun a b => leYearW a b = true)
      (dfWide.filter (fun r => r.country == country))
  if cd.length < 3 then Except.ok none
  else
    match fitColumn fit (cd.map (fun r => r.measles)) contamination
        sklearnDefaultNEstimators rng with
    | .error e => .error e
    | .ok mRes =>
      match fitColumn fit (cd.map (fun r => r.rubella)) contamination
          sklearnDefaultNEstimators rng with
      | .error e => .error e
      | .ok rRes =>
        match jointFit fit (jointFeatures cd) cd.length contamination rng with
        | .error e => .error e
        | .ok jRes =>
          Except.ok (some
            { rows := cd
              measlesAnomaly := mRes.map Prod.fst
              measlesScore := mRes.map Prod.snd
              rubellaAnomaly := rRes.map Prod.fst
              rubellaScore := rRes.map Prod.snd
              jointAnomaly := jRes.map Prod.fst
              jointScore := jRes.map Prod.snd })

/-! ### DataFrame lemmas -/

theorem lookupCol_setCol_self (df : DF) (c : String) (col : List Cell) :
    lookupCol (setCol df c col) c = some col := by
  induction df with
  | nil => simp [setCol, lookupCol]
  | cons p rest ih =>
      obtain ⟨n, cl⟩ := p
      by_cases h : n = c
      · simp [setCol, h, lookupCol]
      · simp [setCol, h, lookupCol, ih]

theorem lookupCol_setCol_ne (df : DF) (b c : String) (col : List Cell) (h : b ≠ c) :
    lookupCol (setCol df c col) b = lookupCol df b := by
  have hcb : c ≠ b := Ne.symm h
  induction df with
  | nil => simp [setCol, lookupCol, hcb]
  | cons p rest ih =>
      obtain ⟨n, cl⟩ := p
      by_cases hn : n = c
      · subst hn
        simp [setCol, lookupCol, hcb]
      · simp only [setCol, if_neg hn, lookupCol]
        by_cases hb : n = b
        · simp [hb]
        · simp [hb, ih]

theorem lookupCol_coerce1_ne (df : DF) (b c : String) (h : b ≠ c) :
    lookupCol (coerce1 df c) b = lookupCol df b := by
  unfold coerce1
  cases hc : lookupCol df c with
  | none => rfl
  | some col => exact lookupCol_setCol_ne df b c _ h

theorem lookupCol_coerce1_self (df : DF) (c : String) :
    lookupCol (coerce1 df c) c = (lookupCol df c).map (List.map toNumericCell) := by
  unfold coerce1
  cases hc : lookupCol df c with
  | none => simp [hc]
  | some col => simp [lookupCol_setCol_self]

/-- All columns of a frame have length `n` (the frame has `n` rows). -/
def colsLen (df : DF) (n : Nat) : Prop := ∀ p ∈ df, p.2.length = n

instance (df : DF) (n : Nat) : Decidable (colsLen df n) :=
  List.decidableBAll _ df

theorem colsLen_lookup {df : DF} {n : Nat} {c : String} {col : List Cell}
    (hw : colsLen df n) (h : lookupCol df c = some col) : col.length = n := by
  induction df with
  | nil => simp [lookupCol] at h
  | cons p rest ih =>
      obtain ⟨m, cl⟩ := p
      simp only [lookupCol] at h
      by_cases hm : m = c
      · rw [if_pos hm] at h
        have hcl : cl = col := by injection h
        subst hcl
        exact hw (m, cl) (by simp)
      · rw [if_neg hm] at h
        exact ih (fun q hq => hw q (List.mem_cons_of_mem _ hq)) h

theorem colsLen_rename {df : DF} {n : Nat} (hw : colsLen df n) :
    colsLen (renameDF df) n := by
  intro p hp
  simp only [renameDF, List.mem_map] at hp
  obtain ⟨q, hq, rfl⟩ := hp
  exact hw q hq

theorem colsLen_setCol {df : DF} {n : Nat} {c : String} {col : List Cell}
    (hw : colsLen df n) (hcol : col.length = n) : colsLen (setCol df c col) n := by
  induction df with
  | nil =>
      intro p hp
      simp only [setCol, List.mem_singleton] at hp
      subst hp
      exact hcol
  | cons p rest ih =>
      obtain ⟨m, cl⟩ := p
      have hwrest : colsLen rest n := fun q hq => hw q (List.mem_cons_of_mem _ hq)
      by_cases hm : m = c
      · intro q hq
        simp only [setCol, if_pos hm] at hq
        rcases List.mem_cons.mp hq with hq1 | hq2
        · subst hq1; exact hcol
        · exact hwrest q hq2
      · intro q hq
        simp only [setCol, if_neg hm] at hq
        rcases List.mem_cons.mp hq with hq1 | hq2
        · subst hq1; exact hw (m, cl) (by simp)
        · exact ih hwrest q hq2

theorem colsLen_coerce1 {df : DF} {n : Nat} (c : String) (hw : colsLen df n) :
    colsLen (coerce1 df c) n := by
  unfold coerce1
  cases hc : lookupCol df c with
  | none => exact hw
  | some col =>
      exact colsLen_setCol hw (by simp [colsLen_lookup hw hc])

theorem colsLen_coerceMeasures {df : DF} {n : Nat} (hw : colsLen df n) :
    colsLen (coerceMeasures df) n := by
  unfold coerceMeasures
  exact colsLen_coerce1 _ (colsLen_coerce1 _ (colsLen_coerce1 _
    (colsLen_coerce1 _ (colsLen_coerce1 _ hw))))

theorem yearCoerceCast_length {yc yc2 : List Cell}
    (h : yearCoerceCast yc = .ok yc2) : yc2.length = yc.length := by
  induction yc generalizing yc2 with
  | nil =>
      simp only [yearCoerceCast] at h
      cases h
      rfl
  | cons c rest ih =>
      simp only [yearCoerceCast] at h
      cases htc : toNumericCell c with
      | num q =>
          rw [htc] at h
          simp only [] at h
          by_cases hq : q.den = 1
          · rw [if_pos hq] at h
            cases hr : yearCoerceCast rest with
            | ok r =>
                rw [hr] at h
                simp only [] at h
                cases h
                simp [ih hr]
            | error e =>
                rw [hr] at h
                simp at h
          · rw [if_neg hq] at h
            simp at h
      | str s =>
          rw [htc] at h
          simp only [] at h
          cases hr : yearCoerceCast rest with
          | ok r =>
              rw [hr] at h
              simp only [] at h
              cases h
              simp [ih hr]
          | error e =>
              rw [hr] at h
              simp at h
      | null =>
          rw [htc] at h
          simp only [] at h
          cases hr : yearCoerceCast rest with
          | ok r =>
              rw [hr] at h
              simp only [] at h
              cases h
              simp [ih hr]
          | error e =>
              rw [hr] at h
              simp at h

theorem yearCoerceCast_ok {yc : List Cell}
    (h : ∀ c ∈ yc, yearCastOkCell c = true) :
    yearCoerceCast yc = .ok (yc.map yearCellCoerce) := by
  induction yc with
  | nil => simp [yearCoerceCast]
  | cons c rest ih =>
      have hc := h c (by simp)
      have hrest := ih (fun d hd => h d (List.mem_cons_of_mem _ hd))
      simp only [yearCoerceCast, List.map_cons]
      cases htc : toNumericCell c with
      | num q =>
          have hq : q.den = 1 := by
            simpa [yearCastOkCell, htc] using hc
          simp [hq, hrest, yearCellCoerce, htc]
      | str s => simp [hrest, yearCellCoerce, htc]
      | null => simp [hrest, yearCellCoerce, htc]

/-! ### Enricher lemmas -/

theorem rollingMean_length (w : Nat) (xs : List (Option ℚ)) :
    (rollingMean w xs).length = xs.length := by
  simp [rollingMean]

theorem yoyList_length (xs : List (Option ℚ)) :
    (yoyList xs).length = xs.length := by
  simp [yoyList]

theorem attach3_length (rows : List LongRow) (A B C : List (Option ℚ)) :
    (attach3 rows A B C).length = rows.length := by
  induction rows generalizing A B C with
  | nil => cases A <;> cases B <;> cases C <;> simp [attach3]
  | cons r rs ih => cases A <;> cases B <;> cases C <;> simp [attach3, ih]

theorem attach3_map_value (rows : List LongRow) (A B C : List (Option ℚ)) :
    (attach3 rows A B C).map (fun r => r.value) = rows.map (fun r => r.value) := by
  induction rows generalizing A B C with
  | nil => cases A <;> cases B <;> cases C <;> simp [attach3]
  | cons r rs ih => cases A <;> cases B <;> cases C <;> simp [attach3, ih]

theorem attach3_map_roll3 (rows : List LongRow) (A B C : List (Option ℚ))
    (hA : A.length = rows.length) (hB : B.length = rows.length)
    (hC : C.length = rows.length) :
    (attach3 rows A B C).map (fun r => r.roll3) = A := by
  induction rows generalizing A B C with
  | nil =>
      rw [List.length_nil, List.length_eq_zero] at hA
      subst hA
      cases B <;> cases C <;> simp [attach3]
  | cons r rs ih =>
      cases A with
      | nil => simp at hA
      | cons a A2 =>
          cases B with
          | nil => simp at hB
          | cons b B2 =>
              cases C with
              | nil => simp at hC
              | cons c C2 =>
                  simp only [List.length_cons, Nat.succ.injEq] at hA hB hC
                  simp [attach3, ih A2 B2 C2 hA hB hC]

theorem attach3_map_roll5 (rows : List LongRow) (A B C : List (Option ℚ))
    (hA : A.length = rows.length) (hB : B.length = rows.length)
    (hC : C.length = rows.length) :
    (attach3 rows A B C).map (fun r => r.roll5) = B := by
  induction rows generalizing A B C with
  | nil =>
      rw [List.length_nil, List.length_eq_zero] at hB
      subst hB
      cases A <;> cases C <;> simp [attach3]
  | cons r rs ih =>
      cases A with
      | nil => simp at hA
      | cons a A2 =>
          cases B with
          | nil => simp at hB
          | cons b B2 =>
              cases C with
              | nil => simp at hC
              | cons c C2 =>
                  simp only [List.length_cons, Nat.succ.injEq] at hA hB hC
                  simp [attach3, ih A2 B2 C2 hA hB hC]

theorem attach3_map_yoy (rows : List LongRow) (A B C : List (Option ℚ))
    (hA : A.length = rows.length) (hB : B.length = rows.length)
    (hC : C.length = rows.length) :
    (attach3 rows A B C).map (fun r => r.yoy) = C := by
  induction rows generalizing A B C with
  | nil =>
      rw [List.length_nil, List.length_eq_zero] at hC
      subst hC
      cases A <;> cases B <;> simp [attach3]
  | cons r rs ih =>
      cases A with
      | nil => simp at hA
      | cons a A2 =>
          cases B with
          | nil => simp at hB
          | cons b B2 =>
              cases C with
              | nil => simp at hC
              | cons c C2 =>
                  simp only [List.length_cons, Nat.succ.injEq] at hA hB hC
                  simp [attach3, ih A2 B2 C2 hA hB hC]

theorem add_rolls_yoy_length (g : List LongRow) :
    (add_rolls_yoy g).length = g.length := by
  unfold add_rolls_yoy
  rw [attach3_length, List.length_insertionSort]

theorem add_rolls_yoy_map_value (g : List LongRow) :
    (add_rolls_yoy g).map (fun r => r.value)
      = (List.insertionSort (fun a b => leYear a b = true) g).map (fun r => r.value) := by
  unfold add_rolls_yoy
  rw [attach3_map_value]

theorem add_rolls_yoy_map_roll3 (g : List LongRow) :
    (add_rolls_yoy g).map (fun r => r.roll3)
      = rollingMean 3 ((List.insertionSort (fun a b => leYear a b = true) g).map
          (fun r => r.value)) := by
  unfold add_rolls_yoy
  rw [attach3_map_roll3] <;> simp [rollingMean_length, yoyList_length]

theorem add_rolls_yoy_map_roll5 (g : List LongRow) :
    (add_rolls_yoy g).map (fun r => r.roll5)
      = rollingMean 5 ((List.insertionSort (fun a b => leYear a b = true) g).map
          (fun r => r.value)) := by
  unfold add_rolls_yoy
  rw [attach3_map_roll5] <;> simp [rollingMean_length, yoyList_length]

theorem add_rolls_yoy_map_yoy (g : List LongRow) :
    (add_rolls_yoy g).map (fun r => r.yoy)
      = yoyList ((List.insertionSort (fun a b => leYear a b = true) g).map
          (fun r => r.value)) := by
  unfold add_rolls_yoy
  rw [attach3_map_yoy] <;> simp [rollingMean_length, yoyList_length]

/-! ### Window characterization -/

/-- The indices `max(0, i+1-w) .. i` of a trailing window of width `w`
ending at row `i` (natural subtraction clips at the group start). -/
def windowIdx (w i : Nat) : List Nat := List.range' (i + 1 - w) (i + 1 - (i + 1 - w))

/-- The non-null values among rows `max(0, i+1-w) .. i`, as the spec
phrases the trailing window. -/
def claimWindow (w i : Nat) (xs : List (Option ℚ)) : List ℚ :=
  ((windowIdx w i).map (fun j => xs.getD j none)).filterMap id

/-- The spec's trailing-window mean: mean of the non-null values among
rows `max(0, i+1-w) .. i`, null when the window has no non-null value. -/
def claimRollMean (w i : Nat) (xs : List (Option ℚ)) : Option ℚ :=
  if claimWindow w i xs = [] then none
  else some ((claimWindow w i xs).sum / ((claimWindow w i xs).length : ℚ))

theorem getD_range_map (f : Nat → Option ℚ) (n i : Nat) (h : i < n) :
    ((List.range n).map f).getD i none = f i := by
  have h1 : i < ((List.range n).map f).length := by simpa using h
  rw [List.getD_eq_getElem?_getD, List.getElem?_eq_getElem h1]
  simp

theorem take_drop_window (xs : List (Option ℚ)) (i w : Nat) (h : i < xs.length) :
    (xs.take (i + 1)).drop (i + 1 - w)
      = (windowIdx w i).map (fun j => xs.getD j none) := by
  have hlo : i + 1 - w ≤ i + 1 := Nat.sub_le _ _
  apply List.ext_getElem
  · simp [windowIdx, List.length_take, Nat.min_eq_left (Nat.succ_le_of_lt h)]
  · intro k h1 h2
    have hlen : ((xs.take (i + 1)).drop (i + 1 - w)).length = i + 1 - (i + 1 - w) := by
      simp [List.length_take, Nat.min_eq_left (Nat.succ_le_of_lt h)]
    have hk : k < i + 1 - (i + 1 - w) := by rw [← hlen]; exact h1
    have hki : i + 1 - w + k < i + 1 := by omega
    have hkx : i + 1 - w + k < xs.length := by omega
    have hkt : i + 1 - w + k < (xs.take (i + 1)).length := by
      simp [List.length_take, Nat.min_eq_left (Nat.succ_le_of_lt h)]; omega
    rw [List.getElem_drop, List.getElem_take]
    simp only [windowIdx, List.getElem_map, List.getElem_range'_1]
    rw [List.getD_eq_getElem?_getD, List.getElem?_eq_getElem hkx]
    simp

theorem rollingMean_getD (w : Nat) (xs : List (Option ℚ)) (i : Nat) (h : i < xs.length) :
    (rollingMean w xs).getD i none = claimRollMean w i xs := by
  unfold rollingMean
  rw [getD_range_map _ _ _ h]
  simp only [take_drop_window xs i w h]
  rfl

theorem claimRollMean_isSome (w i : Nat) (xs : List (Option ℚ)) (v : ℚ)
    (hw : 1 ≤ w) (h : i < xs.length) (hv : xs.getD i none = some v) :
    (claimRollMean w i xs).isSome = true := by
  have hmem : v ∈ claimWindow w i xs := by
    apply List.mem_filterMap.mpr
    refine ⟨some v, ?_, rfl⟩
    apply List.mem_map.mpr
    refine ⟨i, ?_, hv⟩
    simp only [windowIdx, List.mem_range'_1]
    omega
  have hne : claimWindow w i xs ≠ [] := List.ne_nil_of_mem hmem
  simp [claimRollMean, hne]

theorem yoyList_getD (xs : List (Option ℚ)) (i : Nat) (h : i < xs.length) :
    (yoyList xs).getD i none
      = match (if i = 0 then none else xs.getD (i - 1) none) with
        | none => none
        | some p => if p = 0 then none else (xs.getD i none).map (fun v => v / p - 1) := by
  unfold yoyList
  rw [getD_range_map _ _ _ h]

/-! ### Claims about the enricher -/

/-- C1: for every (country, disease) group processed by the enricher (its
rows sorted by year ascending), `roll3[i]` equals the mean of the non-null
values among rows `max(0, i-2) .. i` of the group and is non-null whenever
the current row's value is non-null; `roll5` is the analogous 5-row
trailing mean. -/
theorem add_rolls_yoy_rolling_spec (g : List LongRow) (i : Nat) (h : i < g.length) :
    (((add_rolls_yoy g).map (fun r => r.roll3)).getD i none
        = claimRollMean 3 i ((add_rolls_yoy g).map (fun r => r.value)))
    ∧ (((add_rolls_yoy g).map (fun r => r.roll5)).getD i none
        = claimRollMean 5 i ((add_rolls_yoy g).map (fun r => r.value)))
    ∧ ((((add_rolls_yoy g).map (fun r => r.value)).getD i none).isSome = true
        → (((add_rolls_yoy g).map (fun r => r.roll3)).getD i none).isSome = true)
    ∧ ((((add_rolls_yoy g).map (fun r => r.value)).getD i none).isSome = true
        → (((add_rolls_yoy g).map (fun r => r.roll5)).getD i none).isSome = true) := by
  have hlen : ((List.insertionSort (fun a b => leYear a b = true) g).map
      (fun r => r.value)).length = g.length := by
    simp [List.length_insertionSort]
  have hx : i < ((List.insertionSort (fun a b => leYear a b = true) g).map
      (fun r => r.value)).length := by rw [hlen]; exact h
  rw [add_rolls_yoy_map_roll3, add_rolls_yoy_map_roll5, add_rolls_yoy_map_value]
  refine ⟨rollingMean_getD 3 _ i hx, rollingMean_getD 5 _ i hx, ?_, ?_⟩
  · intro hv
    obtain ⟨v, hv⟩ := Option.isSome_iff_exists.mp hv
    rw [rollingMean_getD 3 _ i hx]
    exact claimRollMean_isSome 3 i _ v (by norm_num) hx hv
  · intro hv
    obtain ⟨v, hv⟩ := Option.isSome_iff_exists.mp hv
    rw [rollingMean_getD 5 _ i hx]
    exact claimRollMean_isSome 5 i _ v (by norm_num) hx hv

/-- The spec's worked example group: CountryA measles, 2020-2022. -/
def gEx : List LongRow :=
  [{ region := "AFR", country := "CountryA", year := some 2020,
     value := some 100, disease := "Measles" },
   { region := "AFR", country := "CountryA", year := some 2021,
     value := some 150, disease := "Measles" },
   { region := "AFR", country := "CountryA", year := some 2022,
     value := some 95, disease := "Measles" }]

/-- Witness for C1 at the spec's worked example, row index 2. -/
theorem add_rolls_yoy_rolling_spec_witness :
    (((add_rolls_yoy gEx).map (fun r => r.roll3)).getD 2 none
        = claimRollMean 3 2 ((add_rolls_yoy gEx).map (fun r => r.value)))
    ∧ (((add_rolls_yoy gEx).map (fun r => r.roll5)).getD 2 none
        = claimRollMean 5 2 ((add_rolls_yoy gEx).map (fun r => r.value)))
    ∧ ((((add_rolls_yoy gEx).map (fun r => r.value)).getD 2 none).isSome = true
        → (((add_rolls_yoy gEx).map (fun r => r.roll3)).getD 2 none).isSome = true)
    ∧ ((((add_rolls_yoy gEx).map (fun r => r.value)).getD 2 none).isSome = true
        → (((add_rolls_yoy gEx).map (fun r => r.roll5)).getD 2 none).isSome = true) :=
  add_rolls_yoy_rolling_spec gEx 2 (by decide)

/-- C2: within every group the enricher leaves `yoy[0]` null, leaves
`yoy[i]` null whenever the previous row's value is null or zero, and
otherwise sets `yoy[i] = value[i]/value[i-1] - 1`. -/
theorem add_rolls_yoy_yoy_spec (g : List LongRow) :
    (0 < g.length → ((add_rolls_yoy g).map (fun r => r.yoy)).getD 0 none = none)
    ∧ (∀ i, i < g.length → 1 ≤ i →
        (((add_rolls_yoy g).map (fun r => r.value)).getD (i - 1) none = none
          ∨ ((add_rolls_yoy g).map (fun r => r.value)).getD (i - 1) none = some 0)
        → ((add_rolls_yoy g).map (fun r => r.yoy)).getD i none = none)
    ∧ (∀ i p v, i < g.length → 1 ≤ i →
        ((add_rolls_yoy g).map (fun r => r.value)).getD (i - 1) none = some p →
        p ≠ 0 →
        ((add_rolls_yoy g).map (fun r => r.value)).getD i none = some v →
        ((add_rolls_yoy g).map (fun r => r.yoy)).getD i none = some (v / p - 1)) := by
  have hlen : ((List.insertionSort (fun a b => leYear a b = true) g).map
      (fun r => r.value)).length = g.length := by
    simp [List.length_insertionSort]
  refine ⟨?_, ?_, ?_⟩
  · intro h0
    rw [add_rolls_yoy_map_yoy, yoyList_getD _ 0 (by rw [hlen]; exact h0)]
    simp
  · intro i hi h1 hprev
    rw [add_rolls_yoy_map_value] at hprev
    rw [add_rolls_yoy_map_yoy, yoyList_getD _ i (by rw [hlen]; exact hi)]
    have hne : ¬ (i = 0) := by omega
    rw [if_neg hne]
    simp only [List.getD_eq_getElem?_getD, List.getElem?_map] at hprev ⊢
    rcases hprev with hp | hp
    · simp [hp]
    · simp [hp]
  · intro i p v hi h1 hp hp0 hv
    rw [add_rolls_yoy_map_value] at hp hv
    rw [add_rolls_yoy_map_yoy, yoyList_getD _ i (by rw [hlen]; exact hi)]
    have hne : ¬ (i = 0) := by omega
    rw [if_neg hne]
    simp only [List.getD_eq_getElem?_getD, List.getElem?_map] at hp hv ⊢
    simp [hp, hv, hp0]

/-- Witness for C2 at the spec's worked example: yoy is null at row 0 and
equals 150/100 - 1 = 1/2 at row 1. -/
theorem add_rolls_yoy_yoy_spec_witness :
    ((add_rolls_yoy gEx).map (fun r => r.yoy)).getD 0 none = none
    ∧ ((add_rolls_yoy gEx).map (fun r => r.yoy)).getD 1 none = some ((150 : ℚ) / 100 - 1) :=
  ⟨(add_rolls_yoy_yoy_spec gEx).1 (by decide),
   (add_rolls_yoy_yoy_spec gEx).2.2 1 100 150 (by decide) (by decide)
     (by decide) (by norm_num) (by decide)⟩

/-- C10 (implicit): `yoy[i]` is null whenever the current row's value is
null, even when the previous value is non-null and non-zero. -/
theorem yoy_null_when_value_null (g : List LongRow) (i : Nat) (p : ℚ)
    (h : i < g.length) (h1 : 1 ≤ i)
    (hp : ((add_rolls_yoy g).map (fun r => r.value)).getD (i - 1) none = some p)
    (hp0 : p ≠ 0)
    (hv : ((add_rolls_yoy g).map (fun r => r.value)).getD i none = none) :
    ((add_rolls_yoy g).map (fun r => r.yoy)).getD i none = none := by
  have hlen : ((List.insertionSort (fun a b => leYear a b = true) g).map
      (fun r => r.value)).length = g.length := by
    simp [List.length_insertionSort]
  rw [add_rolls_yoy_map_value] at hp hv
  rw [add_rolls_yoy_map_yoy, yoyList_getD _ i (by rw [hlen]; exact h)]
  have hne : ¬ (i = 0) := by omega
  rw [if_neg hne]
  simp only [List.getD_eq_getElem?_getD, List.getElem?_map] at hp hv ⊢
  simp [hp, hv, hp0]

/-- A group whose second row has a null value after a non-null, non-zero
first value. -/
def gExNull : List LongRow :=
  [{ region := "AFR", country := "CountryA", year := some 2020,
     value := some 100, disease := "Measles" },
   { region := "AFR", country := "CountryA", year := some 2021,
     value := none, disease := "Measles" }]

/-- Witness for C10: with previous value 100 and current value null, yoy
is null. -/
theorem yoy_null_when_value_null_witness :
    ((add_rolls_yoy gExNull).map (fun r => r.yoy)).getD 1 none = none :=
  yoy_null_when_value_null gExNull 1 100 (by decide) (by decide) (by decide)
    (by norm_num) (by decide)

/-! ### Claims about the anomaly detector -/

/-- A fit function used to instantiate witnesses: labels everything
normal with score 0, ignoring RNG state entirely. -/
def constFit : FitFn := fun x _ _ _ _ => (x.map (fun _ => 1), x.map (fun _ => 0))

/-- C5: a country with fewer than 3 filtered rows yields no anomaly
result at all: the detector returns the absent value (None), not an
empty structure and not an error. -/
theorem detect_insufficient_rows_absent (fit : FitFn) (rng : Nat)
    (dfWide : List WideRow) (country : String) (contamination : ℚ)
    (h : (dfWide.filter (fun r => r.country == country)).length < 3) :
    detect_anomalies_for_country fit rng dfWide country contamination
      = Except.ok none := by
  unfold detect_anomalies_for_country
  have hlen : (List.insertionSort (fun a b => leYearW a b = true)
      (dfWide.filter (fun r => r.country == country))).length < 3 := by
    rw [List.length_insertionSort]; exact h
  rw [if_pos hlen]

/-- A two-row wide table for country A. -/
def dfTwoRows : List WideRow :=
  [{ country := "A", year := some 2020, measles := some 100, rubella := some 10 },
   { country := "A", year := some 2021, measles := some 150, rubella := some 15 }]

/-- Witness for C5: two rows for country A produce the absent result. -/
theorem detect_insufficient_rows_absent_witness :
    detect_anomalies_for_country constFit 0 dfTwoRows "A" (1 / 10) = Except.ok none :=
  detect_insufficient_rows_absent constFit 0 dfTwoRows "A" (1 / 10) (by decide)

/-- C8: the detector is deterministic.  Every model is constructed with
the literal seed `random_state=42`, so as long as a seeded fit does not
depend on the ambient RNG state (sklearn's contract for a fixed
`random_state`), two runs on identical input, country and contamination
agree exactly. -/
theorem detect_deterministic (fit : FitFn)
    (hseed : ∀ x c n r s, fit x c n r (some s) = fit x c n 0 (some s))
    (dfWide : List WideRow) (country : String) (contamination : ℚ)
    (rng1 rng2 : Nat) :
    detect_anomalies_for_country fit rng1 dfWide country contamination
      = detect_anomalies_for_country fit rng2 dfWide country contamination := by
  have key : ∀ rng, detect_anomalies_for_country fit rng dfWide country contamination
      = detect_anomalies_for_country fit 0 dfWide country contamination := by
    intro rng
    simp only [detect_anomalies_for_country, fitColumn, jointFit, hseed]
  rw [key rng1, key rng2]

/-- A three-row wide table for country A with no nulls. -/
def dfThreeRows : List WideRow :=
  [{ country := "A", year := some 2020, measles := some 100, rubella := some 10 },
   { country := "A", year := some 2021, measles := some 150, rubella := some 15 },
   { country := "A", year := some 2022, measles := some 95, rubella := some 9 }]

/-- Witness for C8: two runs with different ambient RNG states agree. -/
theorem detect_deterministic_witness :
    detect_anomalies_for_country constFit 5 dfThreeRows "A" (1 / 10)
      = detect_anomalies_for_country constFit 9 dfThreeRows "A" (1 / 10) :=
  detect_deterministic constFit (fun _ _ _ _ _ => rfl) dfThreeRows "A" (1 / 10) 5 9

/-- C7 counterexample: the joint model's `n_estimators=100` does not
exceed the single-feature models' (default) estimator count, which is
also 100. -/
theorem joint_estimators_not_larger :
    ¬ (sklearnDefaultNEstimators < jointNEstimators) := by decide

/-- C7 amended: the joint model passes `n_estimators=100` explicitly,
which equals, rather than exceeds, the sklearn default the single-feature
models use. -/
theorem joint_estimators_equal_default :
    jointNEstimators = sklearnDefaultNEstimators ∧ jointNEstimators = 100 := by decide

/-- A three-row table for country A whose measles column has a null. -/
def dfNullMeasles : List WideRow :=
  [{ country := "A", year := some 2020, measles := some 100, rubella := some 10 },
   { country := "A", year := some 2021, measles := none, rubella := some 15 },
   { country := "A", year := some 2022, measles := some 95, rubella := some 9 }]

/-- C6 is a code bug: with 3 rows present and a null measles value, the
filtered country rows pass the length gate and the raw column (null
included) is handed to `IsolationForest.fit_predict`, which raises a
ValueError on NaN input — a crash, not a non-fatal diagnostic. -/
theorem detect_raises_on_null_feature (fit : FitFn) (rng : Nat) :
    detect_anomalies_for_country fit rng dfNullMeasles "A" (1 / 10)
      = Except.error DetectErr.valueErr := rfl

/-- C9 counterexample: contamination 2 lies outside (0, 1), yet the
detector performs its filtering and returns the ordinary insufficient-data
absence — no parameter rejection is signalled at the entry point. -/
theorem contamination_not_rejected_counterexample :
    detect_anomalies_for_country constFit 0 dfTwoRows "A" 2 = Except.ok none := rfl

/-- C9 amended: the contamination parameter is never validated at the
entry point; for any out-of-range contamination the detector proceeds
exactly as usual, filtering first and returning the ordinary absent
result when fewer than 3 rows remain. -/
theorem contamination_no_entry_rejection (fit : FitFn) (rng : Nat)
    (dfWide : List WideRow) (country : String) (contamination : ℚ)
    (hbad : contamination ≤ 0 ∨ 1 ≤ contamination)
    (h : (dfWide.filter (fun r => r.country == country)).length < 3) :
    detect_anomalies_for_country fit rng dfWide country contamination
      = Except.ok none := by
  unfold detect_anomalies_for_country
  have hlen : (List.insertionSort (fun a b => leYearW a b = true)
      (dfWide.filter (fun r => r.country == country))).length < 3 := by
    rw [List.length_insertionSort]; exact h
  rw [if_pos hlen]

/-- Witness for the amended C9: contamination 5 is out of range and the
two-row table still yields the plain absent result. -/
theorem contamination_no_entry_rejection_witness :
    detect_anomalies_for_country constFit 0 dfTwoRows "A" 5 = Except.ok none :=
  contamination_no_entry_rejection constFit 0 dfTwoRows "A" 5
    (Or.inr (by norm_num)) (by decide)

/-! ### Reshaper lemmas -/

theorem zip4Rows_length (lbl : String) (a b c d : List Cell) (n : Nat)
    (ha : a.length = n) (hb : b.length = n) (hc : c.length = n) (hd : d.length = n) :
    (zip4Rows lbl a b c d).length = n := by
  induction a generalizing b c d n with
  | nil =>
      cases b <;> cases c <;> cases d <;> simp_all [zip4Rows]
  | cons x a2 ih =>
      cases b with
      | nil => exfalso; simp at ha hb; omega
      | cons y b2 =>
          cases c with
          | nil => exfalso; simp at ha hc; omega
          | cons z c2 =>
              cases d with
              | nil => exfalso; simp at ha hd; omega
              | cons w d2 =>
                  simp only [zip4Rows, List.length_cons] at *
                  have hrec := ih b2 c2 d2 a2.length rfl (by omega) (by omega) (by omega)
                  omega

theorem makeSlice_inv {df : DF} {m lbl : String} {L : List LongRow}
    (h : makeSlice df m lbl = some L) :
    ∃ rc cc yc vc, lookupCol df "region" = some rc ∧ lookupCol df "country" = some cc
      ∧ lookupCol df "year" = some yc ∧ lookupCol df m = some vc
      ∧ L = zip4Rows lbl rc cc yc vc := by
  unfold makeSlice at h
  split at h
  · rename_i rc cc yc vc hr hc hy hv
    exact ⟨rc, cc, yc, vc, hr, hc, hy, hv, (Option.some.inj h).symm⟩
  · simp at h

theorem makeSlice_present {df : DF} {m : String} (lbl : String) {rc cc yc vc : List Cell}
    (hr : lookupCol df "region" = some rc) (hc : lookupCol df "country" = some cc)
    (hy : lookupCol df "year" = some yc) (hv : lookupCol df m = some vc) :
    makeSlice df m lbl = some (zip4Rows lbl rc cc yc vc) := by
  unfold makeSlice
  rw [hr, hc, hy, hv]

theorem makeSlice_none_of_absent {df : DF} {m lbl : String}
    (hm : lookupCol df m = none) : makeSlice df m lbl = none := by
  unfold makeSlice
  cases lookupCol df "region" <;> cases lookupCol df "country" <;>
    cases lookupCol df "year" <;> simp [hm]

theorem makeSlice_length {df : DF} {n : Nat} {m lbl : String} {L : List LongRow}
    (hw : colsLen df n) (h : makeSlice df m lbl = some L) : L.length = n := by
  obtain ⟨rc, cc, yc, vc, hr, hc, hy, hv, rfl⟩ := makeSlice_inv h
  exact zip4Rows_length lbl rc cc yc vc n (colsLen_lookup hw hr)
    (colsLen_lookup hw hc) (colsLen_lookup hw hy) (colsLen_lookup hw hv)

theorem length_filter_partition {α : Type} (p : α → Bool) (l : List α) :
    (l.filter p).length + (l.filter (fun x => !(p x))).length = l.length := by
  induction l with
  | nil => rfl
  | cons a l ih =>
      cases hp : p a <;> simp [List.filter_cons, hp, ← ih] <;> omega

theorem gbaFuel_length {κ : Type} [BEq κ] (key : LongRow → κ)
    (f : List LongRow → List LongRow) (hf : ∀ l, (f l).length = l.length) :
    ∀ (fuel : Nat) (l : List LongRow), l.length ≤ fuel →
      (gbaFuel key f fuel l).length = l.length := by
  intro fuel
  induction fuel with
  | zero =>
      intro l hl
      cases l with
      | nil => rfl
      | cons r rest => simp at hl
  | succ fuel ih =>
      intro l hl
      cases l with
      | nil => rfl
      | cons r rest =>
          simp only [gbaFuel, List.length_append, hf]
          have hpart := length_filter_partition (fun x => key x == key r) rest
          have hle : (rest.filter (fun x => !(key x == key r))).length ≤ fuel := by
            have := List.length_filter_le (fun x => !(key x == key r)) rest
            simp only [List.length_cons] at hl
            omega
          rw [ih _ hle]
          simp only [List.length_cons]
          omega

theorem groupByApply_length {κ : Type} [BEq κ] (key : LongRow → κ)
    (f : List LongRow → List LongRow) (hf : ∀ l, (f l).length = l.length)
    (l : List LongRow) : (groupByApply key f l).length = l.length :=
  gbaFuel_length key f hf l.length l (Nat.le_refl _)

theorem per100kSlice_length_present {df : DF} {n : Nat} {c d : String}
    {s : List LongRow} (hw : colsLen df n) (h : makeSlice df c d = some s) :
    (per100kSlice df c d).length = n := by
  unfold per100kSlice
  rw [h]
  rw [groupByApply_length _ _ add_rolls_yoy_length, List.length_insertionSort]
  exact makeSlice_length hw h

theorem per100kSlice_absent {df : DF} {c d : String}
    (h : lookupCol df c = none) : per100kSlice df c d = [] := by
  unfold per100kSlice
  rw [makeSlice_none_of_absent h]

theorem stripIdCols_inv {df1 df3 : DF} (h : stripIdCols df1 = .ok df3) :
    ∃ rc cc, lookupCol df1 "region" = some rc
      ∧ lookupCol (setCol df1 "region" (rc.map astypeStrStrip)) "country" = some cc
      ∧ df3 = setCol (setCol df1 "region" (rc.map astypeStrStrip)) "country"
          (cc.map astypeStrStrip) := by
  unfold stripIdCols at h
  split at h
  · simp at h
  · rename_i rc hr
    split at h
    · simp at h
    · rename_i cc hc
      exact ⟨rc, cc, hr, hc, (Except.ok.inj h).symm⟩

theorem castYearCol_inv {df3 df4 : DF} (h : castYearCol df3 = .ok df4) :
    ∃ yc yc2, lookupCol df3 "year" = some yc ∧ yearCoerceCast yc = .ok yc2
      ∧ df4 = setCol df3 "year" yc2 := by
  unfold castYearCol at h
  split at h
  · simp at h
  · rename_i yc hy
    split at h
    · simp at h
    · rename_i yc2 hcast
      exact ⟨yc, yc2, hy, hcast, (Except.ok.inj h).symm⟩

theorem buildLong_length {df5 : DF} {n : Nat} {long : List LongRow}
    (hw : colsLen df5 n) (h : buildLong df5 = .ok long) :
    long.length = n * (2 + (if (lookupCol df5 "measles_per100k").isSome then 1 else 0)
      + (if (lookupCol df5 "rubella_per100k").isSome then 1 else 0)) := by
  unfold buildLong at h
  split at h
  · simp at h
  · rename_i mL hm
    split at h
    · simp at h
    · rename_i rL hr
      have hlong := (Except.ok.inj h).symm
      obtain ⟨rc, cc, yc, vc, h5r, h5c, h5y, h5m, _⟩ := makeSlice_inv hm
      have hmlen : mL.length = n := makeSlice_length hw hm
      have hrlen : rL.length = n := makeSlice_length hw hr
      have hcore : (groupByApply (fun r => (r.country, r.disease)) add_rolls_yoy
          (List.insertionSort (fun a b => leCDY a b = true) (mL ++ rL))).length = n + n := by
        rw [groupByApply_length _ _ add_rolls_yoy_length, List.length_insertionSort,
          List.length_append, hmlen, hrlen]
      have hp1 : (per100kSlice df5 "measles_per100k" "Measles_per100k").length
          = (if (lookupCol df5 "measles_per100k").isSome then 1 else 0) * n := by
        cases h100 : lookupCol df5 "measles_per100k" with
        | none => rw [per100kSlice_absent h100]; simp
        | some col =>
            rw [per100kSlice_length_present hw (makeSlice_present _ h5r h5c h5y h100)]
            simp
      have hp2 : (per100kSlice df5 "rubella_per100k" "Rubella_per100k").length
          = (if (lookupCol df5 "rubella_per100k").isSome then 1 else 0) * n := by
        cases h100 : lookupCol df5 "rubella_per100k" with
        | none => rw [per100kSlice_absent h100]; simp
        | some col =>
            rw [per100kSlice_length_present hw (makeSlice_present _ h5r h5c h5y h100)]
            simp
      subst hlong
      rw [List.length_append, List.length_append, hcore, hp1, hp2]
      cases (lookupCol df5 "measles_per100k").isSome <;>
        cases (lookupCol df5 "rubella_per100k").isSome <;> simp <;> ring

/-- C4: a wide table with N rows and D disease measure columns present
among measles, rubella, measles_per100k, rubella_per100k reshapes into
exactly N * D long rows, with no rows filtered at that stage (measles and
rubella are always present in the canonical wide output whenever
normalization succeeds, so both always count toward D). -/
theorem normalize_reshape_row_count (df0 : DF) (n : Nat) (wide : DF)
    (long : List LongRow) (hw : colsLen df0 n)
    (h : normalize_and_transform df0 = Except.ok (wide, long)) :
    long.length = n * ((if (lookupCol wide "measles").isSome then 1 else 0)
      + (if (lookupCol wide "rubella").isSome then 1 else 0)
      + (if (lookupCol wide "measles_per100k").isSome then 1 else 0)
      + (if (lookupCol wide "rubella_per100k").isSome then 1 else 0)) := by
  unfold normalize_and_transform at h
  split at h
  · simp at h
  · rename_i df3 hs
    split at h
    · simp at h
    · rename_i df4 hy
      split at h
      · simp at h
      · rename_i long2 hb
        have hpair := Except.ok.inj h
        have hwide : wide = coerceMeasures df4 := by
          have := congrArg Prod.fst hpair
          exact this.symm
        have hlong : long = long2 := by
          have := congrArg Prod.snd hpair
          exact this.symm
        subst hwide
        subst hlong
        have hw1 : colsLen (renameDF df0) n := colsLen_rename hw
        obtain ⟨rc, cc, hr1, hc1, hdf3⟩ := stripIdCols_inv hs
        have hw2 : colsLen (setCol (renameDF df0) "region" (rc.map astypeStrStrip)) n :=
          colsLen_setCol hw1 (by simp [colsLen_lookup hw1 hr1])
        have hw3 : colsLen df3 n := by
          rw [hdf3]
          exact colsLen_setCol hw2 (by simp [colsLen_lookup hw2 hc1])
        obtain ⟨yc, yc2, hy1, hcast, hdf4⟩ := castYearCol_inv hy
        have hw4 : colsLen df4 n := by
          rw [hdf4]
          exact colsLen_setCol hw3
            (by rw [yearCoerceCast_length hcast]; exact colsLen_lookup hw3 hy1)
        have hw5 : colsLen (coerceMeasures df4) n := colsLen_coerceMeasures hw4
        have hlen := buildLong_length hw5 hb
        unfold buildLong at hb
        split at hb
        · simp at hb
        · rename_i mL hm
          split at hb
          · simp at hb
          · rename_i rL hrr
            obtain ⟨rc5, cc5, yc5, vc5, h5r, h5c, h5y, h5m, _⟩ := makeSlice_inv hm
            obtain ⟨rc6, cc6, yc6, vc6, _, _, _, h5rb, _⟩ := makeSlice_inv hrr
            rw [hlen, h5m, h5rb]
            simp

/-- A one-row raw table with the five mandatory columns (the measure
values are null so the witness computation involves no rational
arithmetic; the claim under witness counts rows only). -/
def rawEx1 : DF :=
  [("Region", [Cell.str "AFR"]), ("Country", [Cell.str "A"]),
   ("Year", [Cell.str "2020"]), ("Measles_Cases", [Cell.null]),
   ("Rubella_Cases", [Cell.null])]

/-- The wide table `rawEx1` normalizes to. -/
def wideEx1 : DF :=
  [("region", [Cell.str "AFR"]), ("country", [Cell.str "A"]),
   ("year", [Cell.num 2020]), ("measles", [Cell.null]),
   ("rubella", [Cell.null])]

/-- The long table `rawEx1` reshapes to: one Measles and one Rubella row. -/
def longEx1 : List LongRow :=
  [{ region := "AFR", country := "A", year := some 2020, value := none,
     disease := "Measles", roll3 := none, roll5 := none, yoy := none },
   { region := "AFR", country := "A", year := some 2020, value := none,
     disease := "Rubella", roll3 := none, roll5 := none, yoy := none }]

/-- Witness for C4: one raw row with two disease columns present yields
1 * 2 = 2 long rows. -/
theorem normalize_reshape_row_count_witness :
    colsLen rawEx1 1
    ∧ normalize_and_transform rawEx1 = Except.ok (wideEx1, longEx1)
    ∧ longEx1.length = 1 * ((if (lookupCol wideEx1 "measles").isSome then 1 else 0)
        + (if (lookupCol wideEx1 "rubella").isSome then 1 else 0)
        + (if (lookupCol wideEx1 "measles_per100k").isSome then 1 else 0)
        + (if (lookupCol wideEx1 "rubella_per100k").isSome then 1 else 0)) :=
  ⟨by decide, by rfl,
   normalize_reshape_row_count rawEx1 1 wideEx1 longEx1 (by decide) (by rfl)⟩

/-! ### Normalizer column tracking -/

theorem lookupCol_coerceMeasures_other (df : DF) (b : String)
    (h1 : b ≠ "measles") (h2 : b ≠ "rubella") (h3 : b ≠ "population")
    (h4 : b ≠ "measles_per100k") (h5 : b ≠ "rubella_per100k") :
    lookupCol (coerceMeasures df) b = lookupCol df b := by
  unfold coerceMeasures
  rw [lookupCol_coerce1_ne _ _ _ h5, lookupCol_coerce1_ne _ _ _ h4,
    lookupCol_coerce1_ne _ _ _ h3, lookupCol_coerce1_ne _ _ _ h2,
    lookupCol_coerce1_ne _ _ _ h1]

theorem lookupCol_coerceMeasures_measles (df : DF) :
    lookupCol (coerceMeasures df) "measles"
      = (lookupCol df "measles").map (List.map toNumericCell) := by
  unfold coerceMeasures
  rw [lookupCol_coerce1_ne _ _ _ (by decide), lookupCol_coerce1_ne _ _ _ (by decide),
    lookupCol_coerce1_ne _ _ _ (by decide), lookupCol_coerce1_ne _ _ _ (by decide),
    lookupCol_coerce1_self]

theorem lookupCol_coerceMeasures_rubella (df : DF) :
    lookupCol (coerceMeasures df) "rubella"
      = (lookupCol df "rubella").map (List.map toNumericCell) := by
  unfold coerceMeasures
  rw [lookupCol_coerce1_ne _ _ _ (by decide), lookupCol_coerce1_ne _ _ _ (by decide),
    lookupCol_coerce1_ne _ _ _ (by decide), lookupCol_coerce1_self,
    lookupCol_coerce1_ne _ _ _ (by decide)]

/-- C3 (amended): coercion failures become null — invalid or non-numeric
year values and unparseable measure values coerce to null — and with the
required columns present (and numeric years integral, which the `Int64`
cast demands) normalization returns normally; but when the country column
is absent after rename, the normalizer raises a KeyError rather than
failing soft. -/
theorem normalize_coercion_and_required_columns :
    (∀ df0 : DF, lookupCol (renameDF df0) "country" = none →
        normalize_and_transform df0 = Except.error PdErr.keyError)
    ∧ (∀ (df0 : DF) (rc cc yc mc rbc : List Cell),
        lookupCol (renameDF df0) "region" = some rc →
        lookupCol (renameDF df0) "country" = some cc →
        lookupCol (renameDF df0) "year" = some yc →
        lookupCol (renameDF df0) "measles" = some mc →
        lookupCol (renameDF df0) "rubella" = some rbc →
        (∀ c ∈ yc, yearCastOkCell c = true) →
        ∃ wide long, normalize_and_transform df0 = Except.ok (wide, long)
          ∧ lookupCol wide "year" = some (yc.map yearCellCoerce)
          ∧ lookupCol wide "measles" = some (mc.map toNumericCell)
          ∧ lookupCol wide "rubella" = some (rbc.map toNumericCell)) := by
  constructor
  · intro df0 hcnone
    cases hre : lookupCol (renameDF df0) "region" with
    | none => simp only [normalize_and_transform, stripIdCols, hre]
    | some rc =>
        have h2 : lookupCol (setCol (renameDF df0) "region" (rc.map astypeStrStrip))
            "country" = none :=
          (lookupCol_setCol_ne _ _ _ _ (by decide)).trans hcnone
        simp only [normalize_and_transform, stripIdCols, hre, h2]
  · intro df0 rc cc yc mc rbc hr hc hy hm hb hcast
    have h2c : lookupCol (setCol (renameDF df0) "region" (rc.map astypeStrStrip))
        "country" = some cc :=
      (lookupCol_setCol_ne _ _ _ _ (by decide)).trans hc
    have hstrip : stripIdCols (renameDF df0)
        = .ok (setCol (setCol (renameDF df0) "region" (rc.map astypeStrStrip))
            "country" (cc.map astypeStrStrip)) := by
      simp only [stripIdCols, hr, h2c]
    have h3y : lookupCol (setCol (setCol (renameDF df0) "region"
        (rc.map astypeStrStrip)) "country" (cc.map astypeStrStrip)) "year" = some yc :=
      ((lookupCol_setCol_ne _ _ _ _ (by decide)).trans
        (lookupCol_setCol_ne _ _ _ _ (by decide))).trans hy
    have hycast : yearCoerceCast yc = .ok (yc.map yearCellCoerce) :=
      yearCoerceCast_ok hcast
    have hyear : castYearCol (setCol (setCol (renameDF df0) "region"
        (rc.map astypeStrStrip)) "country" (cc.map astypeStrStrip))
        = .ok (setCol (setCol (setCol (renameDF df0) "region" (rc.map astypeStrStrip))
            "country" (cc.map astypeStrStrip)) "year" (yc.map yearCellCoerce)) := by
      simp only [castYearCol, h3y, hycast]
    have h4r : lookupCol (setCol (setCol (setCol (renameDF df0) "region"
        (rc.map astypeStrStrip)) "country" (cc.map astypeStrStrip)) "year"
        (yc.map yearCellCoerce)) "region" = some (rc.map astypeStrStrip) :=
      ((lookupCol_setCol_ne _ _ _ _ (by decide)).trans
        (lookupCol_setCol_ne _ _ _ _ (by decide))).trans (lookupCol_setCol_self _ _ _)
    have h4c : lookupCol (setCol (setCol (setCol (renameDF df0) "region"
        (rc.map astypeStrStrip)) "country" (cc.map astypeStrStrip)) "year"
        (yc.map yearCellCoerce)) "country" = some (cc.map astypeStrStrip) :=
      (lookupCol_setCol_ne _ _ _ _ (by decide)).trans (lookupCol_setCol_self _ _ _)
    have h4y : lookupCol (setCol (setCol (setCol (renameDF df0) "region"
        (rc.map astypeStrStrip)) "country" (cc.map astypeStrStrip)) "year"
        (yc.map yearCellCoerce)) "year" = some (yc.map yearCellCoerce) :=
      lookupCol_setCol_self _ _ _
    have h4m : lookupCol (setCol (setCol (setCol (renameDF df0) "region"
        (rc.map astypeStrStrip)) "country" (cc.map astypeStrStrip)) "year"
        (yc.map yearCellCoerce)) "measles" = some mc :=
      ((lookupCol_setCol_ne _ _ _ _ (by decide)).trans
        ((lookupCol_setCol_ne _ _ _ _ (by decide)).trans
          (lookupCol_setCol_ne _ _ _ _ (by decide)))).trans hm
    have h4b : lookupCol (setCol (setCol (setCol (renameDF df0) "region"
        (rc.map astypeStrStrip)) "country" (cc.map astypeStrStrip)) "year"
        (yc.map yearCellCoerce)) "rubella" = some rbc :=
      ((lookupCol_setCol_ne _ _ _ _ (by decide)).trans
        ((lookupCol_setCol_ne _ _ _ _ (by decide)).trans
          (lookupCol_setCol_ne _ _ _ _ (by decide)))).trans hb
    refine ⟨coerceMeasures (setCol (setCol (setCol (renameDF df0) "region"
      (rc.map astypeStrStrip)) "country" (cc.map astypeStrStrip)) "year"
      (yc.map yearCellCoerce)), ?_⟩
    have h5r := (lookupCol_coerceMeasures_other _ "region" (by decide) (by decide)
      (by decide) (by decide) (by decide)).trans h4r
    have h5c := (lookupCol_coerceMeasures_other _ "country" (by decide) (by decide)
      (by decide) (by decide) (by decide)).trans h4c
    have h5y := (lookupCol_coerceMeasures_other _ "year" (by decide) (by decide)
      (by decide) (by decide) (by decide)).trans h4y
    have h5m : lookupCol (coerceMeasures (setCol (setCol (setCol (renameDF df0)
        "region" (rc.map astypeStrStrip)) "country" (cc.map astypeStrStrip)) "year"
        (yc.map yearCellCoerce))) "measles" = some (mc.map toNumericCell) := by
      rw [lookupCol_coerceMeasures_measles, h4m]; rfl
    have h5b : lookupCol (coerceMeasures (setCol (setCol (setCol (renameDF df0)
        "region" (rc.map astypeStrStrip)) "country" (cc.map astypeStrStrip)) "year"
        (yc.map yearCellCoerce))) "rubella" = some (rbc.map toNumericCell) := by
      rw [lookupCol_coerceMeasures_rubella, h4b]; rfl
    have hms := makeSlice_present "Measles" h5r h5c h5y h5m
    have hrs := makeSlice_present "Rubella" h5r h5c h5y h5b
    refine ⟨groupByApply (fun r => (r.country, r.disease)) add_rolls_yoy
        (List.insertionSort (fun a b => leCDY a b = true)
          (zip4Rows "Measles" (rc.map astypeStrStrip) (cc.map astypeStrStrip)
              (yc.map yearCellCoerce) (mc.map toNumericCell)
            ++ zip4Rows "Rubella" (rc.map astypeStrStrip) (cc.map astypeStrStrip)
              (yc.map yearCellCoerce) (rbc.map toNumericCell)))
        ++ per100kSlice (coerceMeasures (setCol (setCol (setCol (renameDF df0) "region"
            (rc.map astypeStrStrip)) "country" (cc.map astypeStrStrip)) "year"
            (yc.map yearCellCoerce))) "measles_per100k" "Measles_per100k"
        ++ per100kSlice (coerceMeasures (setCol (setCol (setCol (renameDF df0) "region"
            (rc.map astypeStrStrip)) "country" (cc.map astypeStrStrip)) "year"
            (yc.map yearCellCoerce))) "rubella_per100k" "Rubella_per100k",
      ?_, h5y, h5m, h5b⟩
    simp only [normalize_and_transform, hstrip, hyear, buildLong, hms, hrs]

/-- A raw table lacking any country column. -/
def dfNoCountry : DF := [("Region", [Cell.str "AFR"]), ("Year", [Cell.str "2020"])]

/-- C3 counterexample: with the country column entirely absent, the
normalizer raises a KeyError instead of returning. -/
theorem normalize_missing_country_raises :
    normalize_and_transform dfNoCountry = Except.error PdErr.keyError := by rfl

/-- A raw table whose year and measles values fail coercion. -/
def rawCo : DF :=
  [("Region", [Cell.str "AFR"]), ("Country", [Cell.str "A"]),
   ("Year", [Cell.str "N/A"]), ("Measles_Cases", [Cell.str "abc"]),
   ("Rubella_Cases", [Cell.null])]

/-- Witness for C3: the missing-country table raises, and the table with
unparseable year/measles values normalizes with those cells null. -/
theorem normalize_coercion_witness :
    normalize_and_transform dfNoCountry = Except.error PdErr.keyError
    ∧ (∃ wide long, normalize_and_transform rawCo = Except.ok (wide, long)
        ∧ lookupCol wide "year" = some ([Cell.str "N/A"].map yearCellCoerce)
        ∧ lookupCol wide "measles" = some ([Cell.str "abc"].map toNumericCell)
        ∧ lookupCol wide "rubella" = some ([Cell.null].map toNumericCell)) :=
  ⟨normalize_coercion_and_required_columns.1 dfNoCountry (by rfl),
   normalize_coercion_and_required_columns.2 rawCo [Cell.str "AFR"] [Cell.str "A"]
     [Cell.str "N/A"] [Cell.str "abc"] [Cell.null]
     (by rfl) (by rfl) (by rfl) (by rfl) (by rfl) (by decide)⟩
